import Mathlib

/-!
Verification of the behavior-analysis pipeline of the
SMART-AI-EMPLOYEE-MONITORING---MANAGEMENT-SYSTEM repository
(`src/server/behavior-analysis.py`).

The script decodes a base64-encoded image, runs an OpenCV Haar-cascade
face detector on the grayscale frame, runs an eye detector on the crop of
the first detected face, and maps the detection pattern to one of the
labels "working" / "idle" / "sleeping".  The external OpenCV / base64 /
numpy capabilities are modelled as an environment `Env` of oracle
functions; the script's own control flow (decoding, cropping, the
classification rule, and the `main` glue that turns everything into one
JSON line) is embedded directly.
-/

namespace BehaviorAnalysis

/-- A raw BGR pixel frame as produced by `cv2.imdecode` (rows of BGR triples). -/
def Frame : Type := List (List (Nat × Nat × Nat))

/-- A grayscale pixel grid as produced by `cv2.cvtColor(frame, cv2.COLOR_BGR2GRAY)`. -/
def Gray : Type := List (List Nat)

/-- A detection rectangle `(x, y, w, h)` as returned by `detectMultiScale`. -/
structure Box where
  x : Nat
  y : Nat
  w : Nat
  h : Nat
deriving DecidableEq, Repr

/-- The tunable parameters passed to `detectMultiScale`:
`scaleFactor`, `minNeighbors`, `minSize`. -/
structure ScanParams where
  scaleFactor : ℚ
  minNeighbors : Nat
  minSize : Nat × Nat
deriving DecidableEq

/-- A loaded Haar-cascade classifier (`cv2.CascadeClassifier`): its only
observable behavior in the script is its `detectMultiScale` method. -/
structure DetectorModel where
  detectMultiScale : ScanParams → Gray → List Box

/-- The external capabilities the script calls into:
`base64.b64decode` (raises on invalid input, hence `Except`),
`cv2.imdecode` (returns `None` on undecodable payloads, hence `Option`),
`cv2.cvtColor` on a valid frame, the `cv2.error` message that
`cv2.cvtColor` raises when handed the `None` produced by a failed
`imdecode`, the `cv2.data.haarcascades` directory prefix, and
`cv2.CascadeClassifier` construction from a file path. -/
structure Env where
  b64decode : String → Except String (List Nat)
  imdecode : List Nat → Option Frame
  cvtColor : Frame → Gray
  cvtColorNoneMsg : String
  haarcascades : String
  loadCascade : String → DetectorModel

/-- The scan parameters the script passes for face detection:
`scaleFactor=1.1, minNeighbors=5, minSize=(30, 30)`. -/
def faceScanParams : ScanParams := ⟨(1.1 : ℚ), 5, (30, 30)⟩

/-- The scan parameters the script passes for eye detection:
`scaleFactor=1.1, minNeighbors=5, minSize=(20, 20)`. -/
def eyeScanParams : ScanParams := ⟨(1.1 : ℚ), 5, (20, 20)⟩

/-- Embeds `gray[face[1]:face[1]+face[3], face[0]:face[0]+face[2]]`:
the numpy row slice `[y : y+h]` keeps `h` rows starting at row `y`
(clamped at the array bounds, exactly like `List.drop`/`List.take`), and
the column slice `[x : x+w]` keeps `w` entries of each row starting at
column `x`. -/
def cropGrid (gray : Gray) (face : Box) : Gray :=
  ((gray.drop face.y).take face.h).map (fun row => (row.drop face.x).take face.w)

/-- Embeds `detect_face(face_cascade, frame)`.  In the script `frame` may
be `None` (when `cv2.imdecode` failed); `cv2.cvtColor` then raises a
`cv2.error`, which the embedding surfaces as `Except.error` with the
library's message.  On a real frame it converts to grayscale and runs the
cascade with the face scan parameters, returning `(faces, gray)`. -/
def detect_face (env : Env) (face_cascade : DetectorModel) (frame : Option Frame) :
    Except String (List Box × Gray) :=
  match frame with
  | none => .error env.cvtColorNoneMsg
  | some f =>
    let gray := env.cvtColor f
    .ok (face_cascade.detectMultiScale faceScanParams gray, gray)

/-- Embeds `detect_eyes(eye_cascade, gray, face)`: crop the grayscale grid
to the face rectangle and run the eye cascade on the crop. -/
def detect_eyes (eye_cascade : DetectorModel) (gray : Gray) (face : Box) : List Box :=
  eye_cascade.detectMultiScale eyeScanParams (cropGrid gray face)

/-- Embeds `analyze_behavior(image_data)`: base64-decode the payload
(`base64.b64decode` may raise), reinterpret the bytes as a uint8 array
(`np.frombuffer`, an identity on the byte sequence), `cv2.imdecode` it,
load the two Haar cascades, detect faces, and apply the decision rule:
no face → "idle"; first face with fewer than 2 detected eyes →
"sleeping"; otherwise → "working". -/
def analyze_behavior (env : Env) (image_data : String) : Except String String :=
  match env.b64decode image_data with
  | .error e => .error e
  | .ok image_bytes =>
    let np_array := image_bytes
    let frame := env.imdecode np_array
    let face_cascade := env.loadCascade (env.haarcascades ++ "haarcascade_frontalface_default.xml")
    let eye_cascade := env.loadCascade (env.haarcascades ++ "haarcascade_eye.xml")
    match detect_face env face_cascade frame with
    | .error e => .error e
    | .ok (faces, gray) =>
      match faces with
      | [] => .ok "idle"
      | face :: _ =>
        let eyes := detect_eyes eye_cascade gray face
        if eyes.length < 2 then .ok "sleeping" else .ok "working"

/-- The single structured line the process emits: either
`json.dumps({"status": behavior})` or
`json.dumps({"status": "error", "message": msg})`. -/
inductive Output where
  | status (label : String)
  | error (message : String)
deriving DecidableEq, Repr

/-- One hexadecimal digit, lowercase, as Python's json encoder emits. -/
def hexDigit (n : Nat) : Char :=
  if n < 10 then Char.ofNat (48 + n) else Char.ofNat (87 + n)

/-- Four-digit lowercase hexadecimal rendering of `n`, for `\uXXXX` escapes. -/
def hex4 (n : Nat) : String :=
  String.mk [hexDigit (n / 4096 % 16), hexDigit (n / 256 % 16),
             hexDigit (n / 16 % 16), hexDigit (n % 16)]

/-- Per-character escaping of Python's `json.dumps` with its default
`ensure_ascii=True`: quote and backslash get a backslash escape, the
short control escapes `\b \t \n \f \r` are used, every other character
outside the printable ASCII range 0x20..0x7e becomes `\uXXXX` (a
surrogate pair beyond the BMP), and printable ASCII passes through. -/
def escapeChar (c : Char) : String :=
  let n := c.toNat
  if c = '"' then "\\\""
  else if c = '\\' then "\\\\"
  else if n = 8 then "\\b"
  else if n = 9 then "\\t"
  else if n = 10 then "\\n"
  else if n = 12 then "\\f"
  else if n = 13 then "\\r"
  else if n < 32 ∨ n > 126 then
    if n < 65536 then "\\u" ++ hex4 n
    else "\\u" ++ hex4 (55296 + (n - 65536) / 1024) ++ "\\u" ++ hex4 (56320 + (n - 65536) % 1024)
  else String.singleton c

/-- `json.dumps` string escaping applied to a whole string. -/
def jsonEscape (s : String) : String :=
  String.join (s.toList.map escapeChar)

/-- Embeds the two `json.dumps` call shapes of `main`.  Python 3.7+
preserves dict insertion order and the default separators are
`", "` and `": "`. -/
def jsonDumps : Output → String
  | Output.status label =>
      "\x7b\"status\": \"" ++ jsonEscape label ++ "\"\x7d"
  | Output.error message =>
      "\x7b\"status\": \"error\", \"message\": \"" ++ jsonEscape message ++ "\"\x7d"

/-- Embeds `sys.argv[1] if len(sys.argv) > 1 else ""` (`argv` is the full
`sys.argv`, program name included at index 0). -/
def imageDataOf (argv : List String) : String :=
  if argv.length > 1 then argv.getD 1 "" else ""

/-- Embeds `main()`: take the image argument (empty string when missing),
report `"No image data provided"` when it is falsy, otherwise run
`analyze_behavior` inside the `try`/`except` that converts any raised
exception into the error output. -/
def mainOutput (env : Env) (argv : List String) : Output :=
  let image_data := imageDataOf argv
  if image_data = "" then
    Output.error "No image data provided"
  else
    match analyze_behavior env image_data with
    | .ok behavior => Output.status behavior
    | .error e => Output.error e

/-- The exact single line `main` prints to standard output. -/
def mainPrinted (env : Env) (argv : List String) : String :=
  jsonDumps (mainOutput env argv)

/-- The path of the face cascade the script loads. -/
def facePath (env : Env) : String :=
  env.haarcascades ++ "haarcascade_frontalface_default.xml"

/-- The path of the eye cascade the script loads. -/
def eyePath (env : Env) : String :=
  env.haarcascades ++ "haarcascade_eye.xml"

/-- Replaces the eye cascade of `env` by the model `m`: `loadCascade`
answers `m` on the eye cascade path and is unchanged elsewhere. -/
def envWithEye (env : Env) (m : DetectorModel) : Env :=
  { env with loadCascade := fun p => if p = eyePath env then m else env.loadCascade p }

/-- Concrete environment for witnesses: every payload base64-decodes, the
bytes decode to a one-pixel frame, and every cascade detects nothing. -/
def envNoFace : Env where
  b64decode := fun _ => .ok [1]
  imdecode := fun _ => some [[(0, 0, 0)]]
  cvtColor := fun _ => [[0]]
  cvtColorNoneMsg := "OpenCV(4.x) error: (-215:Assertion failed) !_src.empty() in function cvtColor"
  haarcascades := "/cv2/data/"
  loadCascade := fun _ => ⟨fun _ _ => []⟩

/-- Concrete environment for witnesses: one face is detected and a single
eye is detected inside it. -/
def envOneEye : Env where
  b64decode := fun _ => .ok [1]
  imdecode := fun _ => some [[(0, 0, 0), (0, 0, 0)], [(0, 0, 0), (0, 0, 0)]]
  cvtColor := fun _ => [[0, 0], [0, 0]]
  cvtColorNoneMsg := "OpenCV(4.x) error: (-215:Assertion failed) !_src.empty() in function cvtColor"
  haarcascades := "/cv2/data/"
  loadCascade := fun p =>
    if p = "/cv2/data/haarcascade_eye.xml" then ⟨fun _ _ => [⟨0, 0, 1, 1⟩]⟩
    else ⟨fun _ _ => [⟨0, 0, 2, 2⟩]⟩

/-- Concrete environment for witnesses: one face is detected and two eyes
are detected inside it. -/
def envTwoEyes : Env where
  b64decode := fun _ => .ok [1]
  imdecode := fun _ => some [[(0, 0, 0), (0, 0, 0)], [(0, 0, 0), (0, 0, 0)]]
  cvtColor := fun _ => [[0, 0], [0, 0]]
  cvtColorNoneMsg := "OpenCV(4.x) error: (-215:Assertion failed) !_src.empty() in function cvtColor"
  haarcascades := "/cv2/data/"
  loadCascade := fun p =>
    if p = "/cv2/data/haarcascade_eye.xml" then
      ⟨fun _ _ => [⟨0, 0, 1, 1⟩, ⟨1, 0, 1, 1⟩]⟩
    else ⟨fun _ _ => [⟨0, 0, 2, 2⟩]⟩

/-- Concrete environment for witnesses: the base64 decoder rejects every
payload (as `base64.b64decode` does on invalid padding). -/
def envBadB64 : Env where
  b64decode := fun _ => .error "Invalid base64-encoded string: invalid padding"
  imdecode := fun _ => none
  cvtColor := fun _ => [[0]]
  cvtColorNoneMsg := "OpenCV(4.x) error: (-215:Assertion failed) !_src.empty() in function cvtColor"
  haarcascades := "/cv2/data/"
  loadCascade := fun _ => ⟨fun _ _ => []⟩

/-- Concrete environment for witnesses: the payload base64-decodes but
`cv2.imdecode` cannot decode the bytes into an image and returns `None`. -/
def envUndecodable : Env where
  b64decode := fun _ => .ok [1, 2, 3]
  imdecode := fun _ => none
  cvtColor := fun _ => [[0]]
  cvtColorNoneMsg := "OpenCV(4.x) error: (-215:Assertion failed) !_src.empty() in function cvtColor"
  haarcascades := "/cv2/data/"
  loadCascade := fun _ => ⟨fun _ _ => []⟩

/-- The face cascade path and the eye cascade path always differ, whatever
the `haarcascades` prefix: the two file names have different lengths. -/
lemma face_path_ne_eye_path (env : Env) : facePath env ≠ eyePath env := by
  unfold facePath eyePath
  intro heq
  have h2 := congrArg String.length heq
  rw [String.length_append, String.length_append] at h2
  have e1 : ("haarcascade_frontalface_default.xml" : String).length = 35 := rfl
  have e2 : ("haarcascade_eye.xml" : String).length = 19 := rfl
  rw [e1, e2] at h2
  omega

/-- C1: if the base64 payload decodes, the bytes decode to a frame, and
the face detector returns zero boxes on the grayscale frame, then
`analyze_behavior` returns the label "idle". -/
theorem faces_empty_idle (env : Env) (s : String) (bs : List Nat) (frame : Frame)
    (h1 : env.b64decode s = .ok bs)
    (h2 : env.imdecode bs = some frame)
    (h3 : (env.loadCascade (facePath env)).detectMultiScale faceScanParams
            (env.cvtColor frame) = []) :
    analyze_behavior env s = .ok "idle" := by
  simp only [facePath] at h3
  simp [analyze_behavior, detect_face, h1, h2, h3]

/-- Witness for C1 at the concrete environment `envNoFace`. -/
theorem faces_empty_idle_witness :
    analyze_behavior envNoFace "payload" = .ok "idle" :=
  faces_empty_idle envNoFace "payload" [1] [[(0, 0, 0)]] rfl rfl rfl

/-- C2: if the payload decodes, the face detector returns at least one
box, and the eye detector run on the crop of the first face box returns
fewer than 2 boxes, then `analyze_behavior` returns "sleeping". -/
theorem eyes_lt_two_sleeping (env : Env) (s : String) (bs : List Nat) (frame : Frame)
    (face : Box) (rest : List Box)
    (h1 : env.b64decode s = .ok bs)
    (h2 : env.imdecode bs = some frame)
    (h3 : (env.loadCascade (facePath env)).detectMultiScale faceScanParams
            (env.cvtColor frame) = face :: rest)
    (h4 : (detect_eyes (env.loadCascade (eyePath env)) (env.cvtColor frame) face).length < 2) :
    analyze_behavior env s = .ok "sleeping" := by
  simp only [facePath] at h3
  simp only [eyePath] at h4
  simp [analyze_behavior, detect_face, h1, h2, h3, h4]

/-- Witness for C2 at the concrete environment `envOneEye`. -/
theorem eyes_lt_two_sleeping_witness :
    analyze_behavior envOneEye "payload" = .ok "sleeping" :=
  eyes_lt_two_sleeping envOneEye "payload" [1] [[(0, 0, 0), (0, 0, 0)], [(0, 0, 0), (0, 0, 0)]]
    ⟨0, 0, 2, 2⟩ [] rfl rfl (by decide) (by decide)

/-- C3: if the payload decodes, the face detector returns at least one
box, and the eye detector run on the crop of the first face box returns 2
or more boxes, then `analyze_behavior` returns "working". -/
theorem eyes_ge_two_working (env : Env) (s : String) (bs : List Nat) (frame : Frame)
    (face : Box) (rest : List Box)
    (h1 : env.b64decode s = .ok bs)
    (h2 : env.imdecode bs = some frame)
    (h3 : (env.loadCascade (facePath env)).detectMultiScale faceScanParams
            (env.cvtColor frame) = face :: rest)
    (h4 : 2 ≤ (detect_eyes (env.loadCascade (eyePath env)) (env.cvtColor frame) face).length) :
    analyze_behavior env s = .ok "working" := by
  simp only [facePath] at h3
  simp only [eyePath] at h4
  simp [analyze_behavior, detect_face, h1, h2, h3, Nat.not_lt.mpr h4]

/-- Witness for C3 at the concrete environment `envTwoEyes`. -/
theorem eyes_ge_two_working_witness :
    analyze_behavior envTwoEyes "payload" = .ok "working" :=
  eyes_ge_two_working envTwoEyes "payload" [1] [[(0, 0, 0), (0, 0, 0)], [(0, 0, 0), (0, 0, 0)]]
    ⟨0, 0, 2, 2⟩ [] rfl rfl (by decide) (by decide)

/-- C4: every non-error label `analyze_behavior` returns is one of
"working", "idle", "sleeping"; in particular the label "moving" is never
produced. -/
theorem label_never_moving (env : Env) (s : String) (l : String)
    (h : analyze_behavior env s = .ok l) :
    l = "working" ∨ l = "idle" ∨ l = "sleeping" := by
  unfold analyze_behavior at h
  split at h
  · exact absurd h (by simp)
  · dsimp only at h
    split at h
    · exact absurd h (by simp)
    · split at h
      · simp only [Except.ok.injEq] at h
        exact Or.inr (Or.inl h.symm)
      · split at h
        · simp only [Except.ok.injEq] at h
          exact Or.inr (Or.inr h.symm)
        · simp only [Except.ok.injEq] at h
          exact Or.inl h.symm

/-- Witness for C4 at the concrete environment `envNoFace`. -/
theorem label_never_moving_witness :
    "idle" = "working" ∨ "idle" = "idle" ∨ "idle" = "sleeping" :=
  label_never_moving envNoFace "payload" "idle" rfl

/-- C8: the pipeline is deterministic: two runs of `analyze_behavior` on
the same payload under the same environment (same detector models and
configuration) produce the same result. -/
theorem analyze_two_runs_equal (env : Env) (s : String)
    (r₁ r₂ : Except String String)
    (h1 : analyze_behavior env s = r₁) (h2 : analyze_behavior env s = r₂) :
    r₁ = r₂ :=
  h1.symm.trans h2

/-- Witness for C8 at the concrete environment `envNoFace`. -/
theorem analyze_two_runs_equal_witness :
    (Except.ok "idle" : Except String String) = Except.ok "idle" :=
  analyze_two_runs_equal envNoFace "payload" (.ok "idle") (.ok "idle") rfl rfl

/-- C5: on every input, `main` produces exactly one structured output:
when the image argument is missing or empty it is the fixed error line;
when the pipeline succeeds it is the status line with the pipeline's
label; and when the pipeline fails with any exception `e`, the failure is
caught and converted into the error output carrying exactly `e`.  No
execution path escapes these three cases, so the process always prints
one JSON line and terminates normally. -/
theorem main_single_structured_output (env : Env) (argv : List String) :
    (imageDataOf argv = "" ∧ mainOutput env argv = Output.error "No image data provided") ∨
    (∃ l, analyze_behavior env (imageDataOf argv) = .ok l ∧
      mainOutput env argv = Output.status l) ∨
    (∃ e, analyze_behavior env (imageDataOf argv) = .error e ∧
      mainOutput env argv = Output.error e) := by
  by_cases hd : imageDataOf argv = ""
  · exact Or.inl ⟨hd, by simp [mainOutput, hd]⟩
  · cases ha : analyze_behavior env (imageDataOf argv) with
    | ok l => exact Or.inr (Or.inl ⟨l, rfl, by simp [mainOutput, hd, ha]⟩)
    | error e => exact Or.inr (Or.inr ⟨e, rfl, by simp [mainOutput, hd, ha]⟩)

/-- C6: when no image argument is supplied (`argv` holds at most the
program name), `main` prints exactly the line
`{"status": "error", "message": "No image data provided"}` and its output
does not depend on the environment at all, so the pipeline is never
invoked. -/
theorem missing_arg_error_output (env env' : Env) (argv : List String)
    (h : argv.length ≤ 1) :
    mainOutput env argv = Output.error "No image data provided" ∧
    mainPrinted env argv =
      "\x7b\"status\": \"error\", \"message\": \"No image data provided\"\x7d" ∧
    mainOutput env argv = mainOutput env' argv := by
  have hd : imageDataOf argv = "" := by
    unfold imageDataOf
    rw [if_neg (by omega)]
  refine ⟨by simp [mainOutput, hd], ?_, by simp [mainOutput, hd]⟩
  show jsonDumps (mainOutput env argv) = _
  have h1 : mainOutput env argv = Output.error "No image data provided" := by
    simp [mainOutput, hd]
  rw [h1]
  rfl

/-- Witness for C6 with two different concrete environments. -/
theorem missing_arg_error_output_witness :
    mainOutput envNoFace ["behavior-analysis.py"] = Output.error "No image data provided" ∧
    mainPrinted envNoFace ["behavior-analysis.py"] =
      "\x7b\"status\": \"error\", \"message\": \"No image data provided\"\x7d" ∧
    mainOutput envNoFace ["behavior-analysis.py"] = mainOutput envTwoEyes ["behavior-analysis.py"] :=
  missing_arg_error_output envNoFace envTwoEyes ["behavior-analysis.py"] (by decide)

/-- C7: whenever the payload is empty, or the base64 decoder rejects it,
or the bytes do not decode to an image (under the well-formedness facts
that the decoder's exception messages and the `cv2.error` message raised
on an undecodable frame are non-empty), the output is an error output
with a non-empty message; in the non-empty-payload cases the pipeline
fails with exactly that message, propagated verbatim with no retry. -/
theorem decode_failure_error_output (env : Env) (argv : List String)
    (hwf1 : ∀ s e, env.b64decode s = .error e → e ≠ "")
    (hwf2 : env.cvtColorNoneMsg ≠ "")
    (hfail : imageDataOf argv = "" ∨
      (∃ e, env.b64decode (imageDataOf argv) = .error e) ∨
      (∃ bs, env.b64decode (imageDataOf argv) = .ok bs ∧ env.imdecode bs = none)) :
    ∃ m, mainOutput env argv = Output.error m ∧ m ≠ "" ∧
      (imageDataOf argv ≠ "" → analyze_behavior env (imageDataOf argv) = .error m) := by
  by_cases hd : imageDataOf argv = ""
  · exact ⟨"No image data provided", by simp [mainOutput, hd], by decide,
      fun hne => absurd hd hne⟩
  · rcases hfail with hd' | ⟨e, he⟩ | ⟨bs, hb, hi⟩
    · exact absurd hd' hd
    · have ha : analyze_behavior env (imageDataOf argv) = .error e := by
        simp [analyze_behavior, he]
      exact ⟨e, by simp [mainOutput, hd, ha], hwf1 _ _ he, fun _ => ha⟩
    · have ha : analyze_behavior env (imageDataOf argv) = .error env.cvtColorNoneMsg := by
        simp [analyze_behavior, detect_face, hb, hi]
      exact ⟨env.cvtColorNoneMsg, by simp [mainOutput, hd, ha], hwf2, fun _ => ha⟩

/-- Witness for C7 at the concrete environment `envBadB64`. -/
theorem decode_failure_error_output_witness :
    ∃ m, mainOutput envBadB64 ["behavior-analysis.py", "abc"] = Output.error m ∧ m ≠ "" ∧
      (imageDataOf ["behavior-analysis.py", "abc"] ≠ "" →
        analyze_behavior envBadB64 (imageDataOf ["behavior-analysis.py", "abc"]) = .error m) :=
  decode_failure_error_output envBadB64 ["behavior-analysis.py", "abc"]
    (fun s e h => by injection h with h2; rw [← h2]; decide)
    (by decide)
    (Or.inr (Or.inl ⟨"Invalid base64-encoded string: invalid padding", rfl⟩))

/-- C9: the eye detector is consulted only on the crop of the grayscale
grid to the first face box: replacing the eye cascade by any model that
agrees with it on exactly that cropped sub-grid leaves the result of
`analyze_behavior` unchanged, on every payload.  So no region outside the
first detected face rectangle ever influences — or is ever submitted
to — eye detection. -/
theorem eye_detector_only_on_first_face_crop (env : Env) (m : DetectorModel) (s : String)
    (hagree : ∀ bs frame face rest,
      env.b64decode s = .ok bs →
      env.imdecode bs = some frame →
      (env.loadCascade (facePath env)).detectMultiScale faceScanParams (env.cvtColor frame)
        = face :: rest →
      m.detectMultiScale eyeScanParams (cropGrid (env.cvtColor frame) face)
        = (env.loadCascade (eyePath env)).detectMultiScale eyeScanParams
            (cropGrid (env.cvtColor frame) face)) :
    analyze_behavior (envWithEye env m) s = analyze_behavior env s := by
  have hne : env.haarcascades ++ "haarcascade_frontalface_default.xml"
      ≠ env.haarcascades ++ "haarcascade_eye.xml" := by
    have h3 := face_path_ne_eye_path env
    unfold facePath eyePath at h3
    exact h3
  unfold analyze_behavior
  cases hb : env.b64decode s with
  | error e => simp [envWithEye, hb]
  | ok bs =>
    cases hf : env.imdecode bs with
    | none => simp [envWithEye, detect_face, hb, hf]
    | some frame =>
      cases hfcs : (env.loadCascade
          (env.haarcascades ++ "haarcascade_frontalface_default.xml")).detectMultiScale
          faceScanParams (env.cvtColor frame) with
      | nil => simp [envWithEye, detect_face, eyePath, hb, hf, hfcs, hne]
      | cons face rest =>
        have hm := hagree bs frame face rest hb hf (by unfold facePath; exact hfcs)
        unfold eyePath at hm
        simp [envWithEye, detect_face, detect_eyes, eyePath, hb, hf, hfcs, hne, hm]

/-- Witness for C9 at the concrete environment `envTwoEyes`, replacing the
eye cascade by a model that agrees with it on the face crop. -/
theorem eye_detector_only_on_first_face_crop_witness :
    analyze_behavior (envWithEye envTwoEyes ⟨fun _ _ => [⟨0, 0, 1, 1⟩, ⟨1, 0, 1, 1⟩]⟩) "payload"
      = analyze_behavior envTwoEyes "payload" :=
  eye_detector_only_on_first_face_crop envTwoEyes ⟨fun _ _ => [⟨0, 0, 1, 1⟩, ⟨1, 0, 1, 1⟩]⟩
    "payload" (fun _ _ _ _ _ _ _ => rfl)

/-- C10: an explicitly supplied empty-string image argument is treated
exactly like a missing argument: `main` reports "No image data provided",
the output equals the missing-argument output, and it does not depend on
the environment, so the pipeline is never invoked on the empty payload. -/
theorem empty_string_arg_like_missing (env env' : Env) (prog : String) (rest : List String) :
    mainOutput env (prog :: "" :: rest) = Output.error "No image data provided" ∧
    mainOutput env (prog :: "" :: rest) = mainOutput env [prog] ∧
    mainOutput env (prog :: "" :: rest) = mainOutput env' (prog :: "" :: rest) := by
  have hd : imageDataOf (prog :: "" :: rest) = "" := by
    unfold imageDataOf
    rw [if_pos (by simp)]
    rfl
  have hd2 : imageDataOf [prog] = "" := by
    unfold imageDataOf
    rw [if_neg (by simp)]
  refine ⟨by simp [mainOutput, hd], by simp [mainOutput, hd, hd2], by simp [mainOutput, hd]⟩

end BehaviorAnalysis
